import Mathlib

/-!
Shallow embedding of the MyAiEditor unified file-system core.

The embedding follows the TypeScript sources:
* `LocalFileSystem` — src/services/LocalFileSystem.ts, over an environment of
  Expo file-system primitives (readDirectoryAsync / getInfoAsync / read / write)
  and the host collation used by `localeCompare`;
* `WebSocketSSHService` — the socket.io transport of WebSocketSSHService,
  with broker replies (success / error / timeout of each request) supplied as
  environment-chosen `Except` outcomes;
* `SocketModel` — an operational model of the transport's one-shot
  `socket.once` listener pairs, `setTimeout` deadlines and promise settlement,
  used for the request/reply correlation claims;
* `RemoteFileSystem` — src/services/RemoteFileSystem.ts, the adapter guarding
  every call with `isConnected` and wrapping transport failures;
* `FileSystemManager` — the facade holding the active-backend selector,
  including a small event/trace semantics for connect / disconnect / switch;
* `RealSSHService.connectFallback` — the credential validation of
  src/services/SSHClient.ts.

JavaScript truthiness of optional strings and of numbers is modelled
explicitly where the code relies on it.
-/

set_option linter.unusedVariables false

deriving instance DecidableEq for Except

/-- JavaScript truthiness of an optional string: `undefined` and the empty
string are falsy, every other string is truthy. -/
def truthyStr : Option String → Bool
  | none => false
  | some s => !(s == "")

/-- JavaScript `p || fallback` on an optional string argument, as used for
`path || this.currentPath` and `documentDirectory || '/'`. -/
def jsPathOr (fallback : String) : Option String → String
  | none => fallback
  | some p => if p == "" then fallback else p

/-- Entries returned by listing operations (`FileItem` of
FileSystemInterface.ts). `modifiedDate` is kept as the raw modification time
in seconds. -/
structure FileItem where
  name : String
  path : String
  isFile : Bool
  isDirectory : Bool
  size : Option Nat
  modifiedDate : Option Nat
deriving DecidableEq, Repr

/-- Credential records (`SSHCredentials` of SecureCredentialStore.ts); only
the fields the connection logic reads. -/
structure SSHCredentials where
  host : String
  port : String
  username : String
  password : Option String
  privateKey : Option String
  initialPath : Option String
deriving DecidableEq, Repr

/-- The two values of the manager's active-backend selector. -/
inductive FileSystemSource
  | localSource
  | remoteSource
deriving DecidableEq, Repr

namespace LocalFileSystem

/-- Result record of `FileSystem.getInfoAsync`. -/
structure FsInfo where
  existsFlag : Bool
  isDirectory : Bool
  size : Option Nat
  modificationTime : Option Nat
deriving DecidableEq, Repr

/-- Environment of on-device storage primitives consumed by LocalFileSystem,
plus the host collation backing `String.prototype.localeCompare`. -/
structure FsEnv where
  readDirectory : String → Except String (List String)
  getInfo : String → Except String FsInfo
  readText : String → Except String String
  writeText : String → String → Except String Unit
  locale : String → String → Ordering
  documentDirectory : Option String
  cacheDirectory : Option String

/-- JS `targetPath.endsWith('/')`: whether the last character is a slash. -/
def endsWithSlash (s : String) : Bool :=
  s.data.getLast? == some '/'

/-- Path concatenation of listDirectory:
`targetPath + (targetPath.endsWith('/') ? '' : '/') + fileName`. -/
def fullPath (targetPath name : String) : String :=
  targetPath ++ (if endsWithSlash targetPath then "" else "/") ++ name

/-- The comparator passed to `sort` in LocalFileSystem.listDirectory, as a
Boolean `le`: directories strictly first, names compared by the host
collation within a group. -/
def itemLe (locale : String → String → Ordering) (a b : FileItem) : Bool :=
  if a.isDirectory != b.isDirectory then a.isDirectory
  else !(locale a.name b.name == Ordering.gt)

/-- One listing entry: a successful stat yields the stat metadata, a failed
stat still yields an entry classified as a file of unknown size. A
modification time of 0 is falsy in JS, hence dropped. -/
def statToItem (name fp : String) : Except String FsInfo → FileItem
  | Except.ok info =>
      { name := name
        path := fp
        isFile := !info.isDirectory
        isDirectory := info.isDirectory
        size := info.size
        modifiedDate := match info.modificationTime with
          | some t => if t == 0 then none else some t
          | none => none }
  | Except.error _ =>
      { name := name
        path := fp
        isFile := true
        isDirectory := false
        size := none
        modifiedDate := none }

/-- LocalFileSystem.listDirectory: read the directory, stat every entry
(tolerating per-entry failures), then sort with the directories-first
comparator. A failed directory read surfaces as `Failed to list directory`. -/
def listDirectory (env : FsEnv) (currentPath : String) (pathOpt : Option String) :
    Except String (List FileItem) :=
  let target := jsPathOr currentPath pathOpt
  match env.readDirectory target with
  | Except.error _ => Except.error ("Failed to list directory: " ++ target)
  | Except.ok names =>
      let items := names.map
        (fun n => statToItem n (fullPath target n) (env.getInfo (fullPath target n)))
      Except.ok (items.mergeSort (itemLe env.locale))

/-- LocalFileSystem.changeDirectory: stat the path with `getInfoAsync` and
accept it as the new current path only when it exists and is a directory.
The returned string is the new value of `currentPath`. -/
def changeDirectory (env : FsEnv) (currentPath path : String) :
    Except String String :=
  match env.getInfo path with
  | Except.error e => Except.error e
  | Except.ok info =>
      if !info.existsFlag then
        Except.error ("Directory does not exist: " ++ path)
      else if !info.isDirectory then
        Except.error ("Path is not a directory: " ++ path)
      else Except.ok path

/-- LocalFileSystem.readFile. -/
def readFile (env : FsEnv) (filePath : String) : Except String String :=
  match env.readText filePath with
  | Except.error _ => Except.error ("Failed to read file: " ++ filePath)
  | Except.ok content => Except.ok content

/-- LocalFileSystem.writeFile. -/
def writeFile (env : FsEnv) (filePath content : String) : Except String Unit :=
  match env.writeText filePath content with
  | Except.error _ => Except.error ("Failed to write file: " ++ filePath)
  | Except.ok _ => Except.ok ()

/-- LocalFileSystem.isConnected always reports true. -/
def isConnected : Bool := true

end LocalFileSystem

namespace WebSocketSSHService

/-- The `connectionInfo` record the service keeps after a successful
connect. -/
structure ConnDetails where
  host : String
  username : String
  currentPath : String
deriving DecidableEq, Repr

/-- Mutable state of WebSocketSSHService: `socket` is `none` when the socket
field is null, `some b` when a socket exists whose own connected flag is `b`;
`connected` is the service-level flag; `streamingCallback` records the
registered callback by token. -/
structure WSState where
  socket : Option Bool
  connected : Bool
  currentPath : String
  connectionInfo : Option ConnDetails
  streamingCallback : Option Nat
deriving DecidableEq, Repr

/-- Field initializers of WebSocketSSHService. -/
def initialState : WSState :=
  { socket := none
    connected := false
    currentPath := "/"
    connectionInfo := none
    streamingCallback := none }

/-- WebSocketSSHService.isConnected:
`this.connected && this.socket?.connected === true`. -/
def isConnected (w : WSState) : Bool :=
  w.connected && (w.socket == some true)

/-- The guard every remote operation opens with:
`if (!this.connected || !this.socket)` — note it checks that a socket object
exists, not that it is currently connected. -/
def opGuard (w : WSState) : Bool :=
  w.connected && !(w.socket == none)

/-- WebSocketSSHService.listDirectory: under the guard, the call settles with
whichever of `ssh:listDir:success`, `ssh:listDir:error` or the 15s timeout
fires first; the reply parameter carries that outcome (the timeout being
`Except.error "List directory timeout"`). The success payload is resolved
verbatim — no sorting is applied. -/
def listDirectory (w : WSState) (pathOpt : Option String)
    (reply : Except String (List FileItem)) : Except String (List FileItem) :=
  if !opGuard w then Except.error "SSH not connected" else reply

/-- WebSocketSSHService.readFile; the timeout outcome is
`Except.error "Read file timeout"`. -/
def readFile (w : WSState) (filePath : String)
    (reply : Except String String) : Except String String :=
  if !opGuard w then Except.error "SSH not connected" else reply

/-- WebSocketSSHService.writeFile; the timeout outcome is
`Except.error "Write file timeout"`. -/
def writeFile (w : WSState) (filePath content : String)
    (reply : Except String Unit) : Except String Unit :=
  if !opGuard w then Except.error "SSH not connected" else reply

/-- WebSocketSSHService.executeCommand: a success reply resolves
`result.stdout || ''`; the timeout outcome is
`Except.error "Execute command timeout"`. -/
def executeCommand (w : WSState)
    (reply : Except String (Option String)) : Except String String :=
  if !opGuard w then Except.error "SSH not connected"
  else
    match reply with
    | Except.error e => Except.error e
    | Except.ok stdout =>
        Except.ok (match stdout with
          | none => ""
          | some s => if s == "" then "" else s)

/-- WebSocketSSHService.changeDirectory: validate the path by listing it,
then set the current path and patch `connectionInfo.currentPath`. -/
def changeDirectory (w : WSState) (path : String)
    (reply : Except String (List FileItem)) : Except String WSState :=
  match listDirectory w (some path) reply with
  | Except.error e => Except.error e
  | Except.ok _ =>
      Except.ok { w with
        currentPath := path
        connectionInfo := w.connectionInfo.map
          (fun d => { d with currentPath := path }) }

/-- WebSocketSSHService.cleanup: drop the socket, clear the connected flag,
reset the current path and the connection info. The streaming callback field
is not touched by cleanup. -/
def cleanup (w : WSState) : WSState :=
  { socket := none
    connected := false
    currentPath := "/"
    connectionInfo := none
    streamingCallback := w.streamingCallback }

/-- WebSocketSSHService.disconnect: when connected it emits `ssh:disconnect`
and waits for `ssh:disconnect:success` or a 5s fallback timer, but every
path — acknowledged, timed out, or error — ends in `cleanup`, so the
acknowledgement outcome does not affect the final state. -/
def disconnect (w : WSState) (ackReceived : Bool) : WSState :=
  cleanup w

/-- The starting path chosen on connect:
`credentials.initialPath || «/home/username»`. -/
def initialPathOf (c : SSHCredentials) : String :=
  jsPathOr ("/home/" ++ c.username) c.initialPath

/-- State change of a successful WebSocketSSHService.connect: a fresh socket
whose handshake succeeded, the connected flag raised, the initial path and
the connection info recorded. -/
def connectApply (w : WSState) (c : SSHCredentials) : WSState :=
  { w with
    socket := some true
    connected := true
    currentPath := initialPathOf c
    connectionInfo := some
      { host := c.host, username := c.username, currentPath := initialPathOf c } }

/-- Handler of the socket-level `disconnect` event: the service flag and the
socket's own flag drop, the socket object remains. -/
def socketDropped (w : WSState) : WSState :=
  { w with socket := w.socket.map (fun _ => false), connected := false }

/-- WebSocketSSHService.setStreamingCallback stores the callback
unconditionally. -/
def setStreamingCallback (w : WSState) (cb : Nat) : WSState :=
  { w with streamingCallback := some cb }

/-- WebSocketSSHService.getCurrentPath. -/
def getCurrentPath (w : WSState) : String := w.currentPath

end WebSocketSSHService

namespace RemoteFileSystem

/-- RemoteFileSystem.listDirectory: refuse when not connected, delegate, and
wrap any transport failure in a contextual message. -/
def listDirectory (w : WebSocketSSHService.WSState) (pathOpt : Option String)
    (reply : Except String (List FileItem)) : Except String (List FileItem) :=
  if !WebSocketSSHService.isConnected w then
    Except.error "Not connected to remote server"
  else
    match WebSocketSSHService.listDirectory w pathOpt reply with
    | Except.error _ =>
        Except.error ("Failed to list remote directory: " ++ jsPathOr w.currentPath pathOpt)
    | Except.ok files => Except.ok files

/-- RemoteFileSystem.changeDirectory: refuse when not connected, delegate,
rethrow the delegate's error unchanged. -/
def changeDirectory (w : WebSocketSSHService.WSState) (path : String)
    (reply : Except String (List FileItem)) :
    Except String WebSocketSSHService.WSState :=
  if !WebSocketSSHService.isConnected w then
    Except.error "Not connected to remote server"
  else WebSocketSSHService.changeDirectory w path reply

/-- RemoteFileSystem.readFile. -/
def readFile (w : WebSocketSSHService.WSState) (filePath : String)
    (reply : Except String String) : Except String String :=
  if !WebSocketSSHService.isConnected w then
    Except.error "Not connected to remote server"
  else
    match WebSocketSSHService.readFile w filePath reply with
    | Except.error _ => Except.error ("Failed to read remote file: " ++ filePath)
    | Except.ok content => Except.ok content

/-- RemoteFileSystem.writeFile. -/
def writeFile (w : WebSocketSSHService.WSState) (filePath content : String)
    (reply : Except String Unit) : Except String Unit :=
  if !WebSocketSSHService.isConnected w then
    Except.error "Not connected to remote server"
  else
    match WebSocketSSHService.writeFile w filePath content reply with
    | Except.error _ => Except.error ("Failed to write remote file: " ++ filePath)
    | Except.ok _ => Except.ok ()

/-- RemoteFileSystem.executeCommand: guard, then delegate without wrapping. -/
def executeCommand (w : WebSocketSSHService.WSState)
    (reply : Except String (Option String)) : Except String String :=
  if !WebSocketSSHService.isConnected w then
    Except.error "Not connected to remote server"
  else WebSocketSSHService.executeCommand w reply

/-- RemoteFileSystem.isConnected delegates to the service. -/
def isConnected (w : WebSocketSSHService.WSState) : Bool :=
  WebSocketSSHService.isConnected w

/-- RemoteFileSystem.getCurrentPath delegates to the service. -/
def getCurrentPath (w : WebSocketSSHService.WSState) : String :=
  WebSocketSSHService.getCurrentPath w

end RemoteFileSystem

namespace FileSystemManager

/-- The backend object `getCurrentFS` selects. -/
inductive Backend
  | localFS
  | remoteFS
deriving DecidableEq, Repr

/-- State owned by the manager: the active-backend selector, the local
backend's current path, and the remote service state. -/
structure MgrState where
  currentFileSystem : FileSystemSource
  localCurrentPath : String
  ws : WebSocketSSHService.WSState
deriving DecidableEq, Repr

/-- Initial manager state: selector `local`; the local backend starts at
`documentDirectory || '/'`; the remote service at its field initializers. -/
def initialManager (documentDirectory : Option String) : MgrState :=
  { currentFileSystem := FileSystemSource.localSource
    localCurrentPath := jsPathOr "/" documentDirectory
    ws := WebSocketSSHService.initialState }

/-- FileSystemManager.getCurrentFS:
`this.currentFileSystem === 'local' ? this.localFS : this.remoteFS`. -/
def getCurrentFS (s : MgrState) : Backend :=
  if s.currentFileSystem == FileSystemSource.localSource then Backend.localFS
  else Backend.remoteFS

/-- FileSystemManager.switchToLocal never fails. -/
def switchToLocal (s : MgrState) : Except String MgrState :=
  Except.ok { s with currentFileSystem := FileSystemSource.localSource }

/-- FileSystemManager.switchToRemote: throws unless the remote backend
reports connected; only then flips the selector. -/
def switchToRemote (s : MgrState) : Except String MgrState :=
  if !(RemoteFileSystem.isConnected s.ws) then
    Except.error "Cannot switch to remote file system: not connected"
  else Except.ok { s with currentFileSystem := FileSystemSource.remoteSource }

/-- Environment-chosen outcome of one call to the remote backend's connect:
it resolves true, resolves false, or throws. -/
inductive ConnectOutcome
  | success (c : SSHCredentials)
  | returnedFalse
  | threw (msg : String)
deriving DecidableEq, Repr

/-- FileSystemManager.connectToRemote: delegate to the remote backend; the
selector flips to `remote` only in the resolved-true branch. On a throw the
service has already run cleanup and the error propagates; on resolved-false
the fresh socket handshake succeeded but the SSH flag stayed down. -/
def connectToRemote (s : MgrState) (o : ConnectOutcome) :
    Except String Bool × MgrState :=
  match o with
  | ConnectOutcome.success c =>
      (Except.ok true,
        { s with
          currentFileSystem := FileSystemSource.remoteSource
          ws := WebSocketSSHService.connectApply s.ws c })
  | ConnectOutcome.returnedFalse =>
      (Except.ok false, { s with ws := { s.ws with socket := some true } })
  | ConnectOutcome.threw m =>
      (Except.error m, { s with ws := WebSocketSSHService.cleanup s.ws })

/-- FileSystemManager.disconnectFromRemote: await the remote disconnect
(whose outcome never matters) and unconditionally select `local`. -/
def disconnectFromRemote (s : MgrState) (ackReceived : Bool) : MgrState :=
  { s with
    currentFileSystem := FileSystemSource.localSource
    ws := WebSocketSSHService.disconnect s.ws ackReceived }

/-- Environment bundle for contract calls issued through the manager: the
local storage primitives and the broker replies of the remote requests. -/
structure Env where
  fs : LocalFileSystem.FsEnv
  remoteList : Except String (List FileItem)
  remoteRead : Except String String
  remoteWrite : Except String Unit
  remoteExec : Except String (Option String)

/-- FileSystemManager.getCurrentPath delegates through getCurrentFS. -/
def getCurrentPath (s : MgrState) : String :=
  match getCurrentFS s with
  | Backend.localFS => s.localCurrentPath
  | Backend.remoteFS => RemoteFileSystem.getCurrentPath s.ws

/-- FileSystemManager.listDirectory delegates through getCurrentFS. -/
def listDirectory (s : MgrState) (env : Env) (pathOpt : Option String) :
    Except String (List FileItem) :=
  match getCurrentFS s with
  | Backend.localFS => LocalFileSystem.listDirectory env.fs s.localCurrentPath pathOpt
  | Backend.remoteFS => RemoteFileSystem.listDirectory s.ws pathOpt env.remoteList

/-- FileSystemManager.changeDirectory delegates through getCurrentFS; the
new state carries the selected backend's updated current path. -/
def changeDirectory (s : MgrState) (env : Env) (path : String) :
    Except String MgrState :=
  match getCurrentFS s with
  | Backend.localFS =>
      match LocalFileSystem.changeDirectory env.fs s.localCurrentPath path with
      | Except.error e => Except.error e
      | Except.ok p => Except.ok { s with localCurrentPath := p }
  | Backend.remoteFS =>
      match RemoteFileSystem.changeDirectory s.ws path env.remoteList with
      | Except.error e => Except.error e
      | Except.ok w => Except.ok { s with ws := w }

/-- FileSystemManager.readFile delegates through getCurrentFS. -/
def readFile (s : MgrState) (env : Env) (filePath : String) :
    Except String String :=
  match getCurrentFS s with
  | Backend.localFS => LocalFileSystem.readFile env.fs filePath
  | Backend.remoteFS => RemoteFileSystem.readFile s.ws filePath env.remoteRead

/-- FileSystemManager.writeFile delegates through getCurrentFS. -/
def writeFile (s : MgrState) (env : Env) (filePath content : String) :
    Except String Unit :=
  match getCurrentFS s with
  | Backend.localFS => LocalFileSystem.writeFile env.fs filePath content
  | Backend.remoteFS => RemoteFileSystem.writeFile s.ws filePath content env.remoteWrite

/-- FileSystemManager.isConnected delegates through getCurrentFS. -/
def isConnected (s : MgrState) : Bool :=
  match getCurrentFS s with
  | Backend.localFS => LocalFileSystem.isConnected
  | Backend.remoteFS => RemoteFileSystem.isConnected s.ws

/-- FileSystemManager.executeCommand: refused with the unsupported-operation
error whenever the selector is not `remote`. -/
def executeCommand (s : MgrState) (env : Env) : Except String String :=
  if !(s.currentFileSystem == FileSystemSource.remoteSource) then
    Except.error "Command execution only available in remote mode"
  else RemoteFileSystem.executeCommand s.ws env.remoteExec

/-- FileSystemManager.setStreamingCallback: forwarded when the selector is
`remote`, otherwise silently ignored — the method returns normally either
way and never throws. -/
def setStreamingCallback (s : MgrState) (cb : Nat) : Except String MgrState :=
  Except.ok
    (if s.currentFileSystem == FileSystemSource.remoteSource then
      { s with ws := WebSocketSSHService.setStreamingCallback s.ws cb }
    else s)

/-- The `path.lastIndexOf('/')` split of FileSystemManager.pathExists:
`(path.substring(0, idx) || '/', path.substring(idx + 1))`. -/
def lastSlashSplit (path : String) : String × String :=
  let l := path.toList
  match l.reverse.findIdx? (fun c => c == '/') with
  | none => ("/", path)
  | some r =>
      let i := l.length - 1 - r
      let pre := String.mk (l.take i)
      (if pre == "" then "/" else pre, String.mk (l.drop (i + 1)))

/-- The single listing call FileSystemManager.pathExists issues: the current
directory when local, the parent of the queried path when remote. -/
def pathExistsListing (s : MgrState) (env : Env) (path : String) :
    Except String (List FileItem) :=
  if s.currentFileSystem == FileSystemSource.localSource then
    listDirectory s env none
  else listDirectory s env (some (lastSlashSplit path).1)

/-- FileSystemManager.pathExists: list, search, and convert every failure of
the listing into the result false via the surrounding catch. The method
assigns no field, so the state component is returned untouched. -/
def pathExists (s : MgrState) (env : Env) (path : String) :
    Except String Bool × MgrState :=
  (Except.ok
    (if s.currentFileSystem == FileSystemSource.localSource then
      match listDirectory s env none with
      | Except.error _ => false
      | Except.ok files => files.any (fun f => f.path == path)
    else
      match listDirectory s env (some (lastSlashSplit path).1) with
      | Except.error _ => false
      | Except.ok files => files.any (fun f => f.name == (lastSlashSplit path).2)),
    s)

/-- Session events that touch the manager's selector or the remote service
connection state. -/
inductive MgrEvent
  | evConnect (o : ConnectOutcome)
  | evDisconnect (ackReceived : Bool)
  | evSwitchToLocal
  | evSwitchToRemote
  | evSocketDropped
  | evSetStreamingCallback (cb : Nat)
deriving DecidableEq, Repr

/-- Effect of one session event; a thrown switchToRemote leaves the state as
it was. -/
def step (s : MgrState) (e : MgrEvent) : MgrState :=
  match e with
  | MgrEvent.evConnect o => (connectToRemote s o).2
  | MgrEvent.evDisconnect ack => disconnectFromRemote s ack
  | MgrEvent.evSwitchToLocal =>
      match switchToLocal s with
      | Except.ok t => t
      | Except.error _ => s
  | MgrEvent.evSwitchToRemote =>
      match switchToRemote s with
      | Except.ok t => t
      | Except.error _ => s
  | MgrEvent.evSocketDropped => { s with ws := WebSocketSSHService.socketDropped s.ws }
  | MgrEvent.evSetStreamingCallback cb =>
      match setStreamingCallback s cb with
      | Except.ok t => t
      | Except.error _ => s

/-- Run a session trace. -/
def run (s : MgrState) (tr : List MgrEvent) : MgrState :=
  tr.foldl step s

/-- Whether an event is a successful connectToRemote call. -/
def isConnectSuccess : MgrEvent → Bool
  | MgrEvent.evConnect (ConnectOutcome.success _) => true
  | _ => false

/-- A trace containing no successful connectToRemote call. -/
def noSuccessfulConnect (tr : List MgrEvent) : Bool :=
  tr.all (fun e => !isConnectSuccess e)

end FileSystemManager

namespace RealSSHService

/-- RealSSHService.connectFallback of SSHClient.ts: reject when neither a
truthy password nor a truthy private key is given; for the hard-coded GT
host additionally require the hard-coded password; otherwise the simulated
connection is accepted. -/
def connectFallback (c : SSHCredentials) : Except String Bool :=
  if !truthyStr c.password && !truthyStr c.privateKey then
    Except.error "No password or private key provided"
  else if c.host == "panli-srv1.ece.gatech.edu"
      && !(c.password == some "Monkeystroke69!") then
    Except.error "Authentication failed: Invalid password"
  else Except.ok true

end RealSSHService

namespace SocketModel

/-- Settlement state of a JS promise; settling is one-shot. -/
inductive PState
  | pending
  | resolved (v : String)
  | rejected (e : String)
deriving DecidableEq, Repr

/-- A listener registered with `socket.once`: the event name it waits for,
the promise it settles, and whether it is the rejecting member of the pair. -/
structure OnceListener where
  event : String
  pid : Nat
  isError : Bool
deriving DecidableEq, Repr

/-- An armed `setTimeout` deadline: the promise it would reject and the
timeout message. -/
structure PendingTimer where
  pid : Nat
  msg : String
deriving DecidableEq, Repr

/-- Client-side transport state: the table of live once-listeners in
registration order, the armed timers, and the promises of the issued
requests. -/
structure SocketState where
  listeners : List OnceListener
  timers : List PendingTimer
  promises : List (Nat × PState)
deriving DecidableEq, Repr

/-- The empty transport state. -/
def emptySocket : SocketState :=
  { listeners := [], timers := [], promises := [] }

/-- Settle one promise: resolving or rejecting an already settled promise is
a no-op, exactly as in JS. -/
def settle (promises : List (Nat × PState)) (pid : Nat) (out : PState) :
    List (Nat × PState) :=
  promises.map (fun q =>
    if q.1 == pid then
      (q.1, match q.2 with
        | PState.pending => out
        | done => done)
    else q)

/-- Look up the state of a request's promise. -/
def promiseOf (s : SocketState) (pid : Nat) : Option PState :=
  s.promises.lookup pid

/-- Issue one remote request the way every WebSocketSSHService operation
does: arm the operation timeout, register the one-shot success listener,
then the one-shot error listener, and emit. Nothing links the timer to the
listeners except that each listener clears the timer when it fires. -/
def registerRequest (s : SocketState) (pid : Nat)
    (okEvent errEvent timeoutMsg : String) : SocketState :=
  { listeners := s.listeners ++
      [{ event := okEvent, pid := pid, isError := false },
       { event := errEvent, pid := pid, isError := true }]
    timers := s.timers ++ [{ pid := pid, msg := timeoutMsg }]
    promises := s.promises ++ [(pid, PState.pending)] }

/-- The operation timeout elapses: the armed timer fires once, rejecting the
request's promise with the timeout message. The handler removes no
listener — the code's timeout callback only calls reject. -/
def fireTimer (s : SocketState) (pid : Nat) : SocketState :=
  match s.timers.find? (fun t => t.pid == pid) with
  | none => s
  | some t =>
      { s with
        timers := s.timers.eraseP (fun u => u.pid == pid)
        promises := settle s.promises pid (PState.rejected t.msg) }

/-- Body of one fired once-listener: `clearTimeout(timeout)` then resolve or
reject its promise with the payload. -/
def fireListener (s : SocketState) (l : OnceListener) (payload : String) :
    SocketState :=
  { s with
    timers := s.timers.eraseP (fun u => u.pid == l.pid)
    promises := settle s.promises l.pid
      (if l.isError then PState.rejected payload else PState.resolved payload) }

/-- A wire message arrives: every live once-listener registered for that
event name is removed and fired, in registration order — socket.io removes
only the listeners of the event that fired, never their siblings. -/
def deliver (s : SocketState) (event payload : String) : SocketState :=
  let fired := s.listeners.filter (fun l => l.event == event)
  let rest := { s with listeners := s.listeners.filter (fun l => !(l.event == event)) }
  fired.foldl (fun st l => fireListener st l payload) rest

end SocketModel

/-- Details component of a getConnectionInfo record: the local backend
reports its storage directories, the remote service its (possibly null)
connection record. -/
inductive ConnInfoDetails
  | localDetails (documentDirectory cacheDirectory : Option String) (currentPath : String)
  | remoteDetails (d : Option WebSocketSSHService.ConnDetails)
deriving DecidableEq, Repr

/-- The record returned by every getConnectionInfo implementation. -/
structure ConnectionInfo where
  connected : Bool
  source : FileSystemSource
  details : ConnInfoDetails
deriving DecidableEq, Repr

namespace LocalFileSystem

/-- LocalFileSystem.getConnectionInfo: always connected, local source. -/
def getConnectionInfo (env : FsEnv) (currentPath : String) : ConnectionInfo :=
  { connected := true
    source := FileSystemSource.localSource
    details := ConnInfoDetails.localDetails env.documentDirectory env.cacheDirectory currentPath }

end LocalFileSystem

namespace WebSocketSSHService

/-- WebSocketSSHService.getConnectionInfo reports the raw `connected` flag
and the stored connection record. -/
def getConnectionInfo (w : WSState) : ConnectionInfo :=
  { connected := w.connected
    source := FileSystemSource.remoteSource
    details := ConnInfoDetails.remoteDetails w.connectionInfo }

end WebSocketSSHService

namespace RemoteFileSystem

/-- RemoteFileSystem.getConnectionInfo delegates to the service. -/
def getConnectionInfo (w : WebSocketSSHService.WSState) : ConnectionInfo :=
  WebSocketSSHService.getConnectionInfo w

end RemoteFileSystem

namespace FileSystemManager

/-- FileSystemManager.getConnectionInfo: delegates through getCurrentFS and
overrides the `source` field with the selector. -/
def getConnectionInfo (s : MgrState) (env : Env) : ConnectionInfo :=
  let info :=
    match getCurrentFS s with
    | Backend.localFS => LocalFileSystem.getConnectionInfo env.fs s.localCurrentPath
    | Backend.remoteFS => RemoteFileSystem.getConnectionInfo s.ws
  { info with source := s.currentFileSystem }

end FileSystemManager

/-- Concrete storage environment used by witnesses: a directory holding the
names `b` and `a`, every per-entry stat failing, a trivially lawful
collation. -/
def witnessFsEnv : LocalFileSystem.FsEnv :=
  { readDirectory := fun _ => Except.ok ["b", "a"]
    getInfo := fun _ => Except.error "stat failed"
    readText := fun _ => Except.ok ""
    writeText := fun _ _ => Except.ok ()
    locale := fun _ _ => Ordering.eq
    documentDirectory := none
    cacheDirectory := none }

/-- Concrete manager environment used by witnesses. -/
def witnessEnv : FileSystemManager.Env :=
  { fs := witnessFsEnv
    remoteList := Except.ok []
    remoteRead := Except.ok ""
    remoteWrite := Except.ok ()
    remoteExec := Except.ok none }

/-- C4: after any call to disconnectFromRemote, the selector is `local` and
the remote backend reports disconnected, for every prior state and for
either acknowledgement outcome of the broker. -/
theorem c4_disconnect_always_local (s : FileSystemManager.MgrState) (ack : Bool) :
    (FileSystemManager.disconnectFromRemote s ack).currentFileSystem
        = FileSystemSource.localSource
    ∧ RemoteFileSystem.isConnected (FileSystemManager.disconnectFromRemote s ack).ws
        = false
    ∧ WebSocketSSHService.isConnected (FileSystemManager.disconnectFromRemote s ack).ws
        = false := by
  refine ⟨rfl, rfl, rfl⟩

/-- C5: connectToRemote flips the selector to `remote` exactly in the
resolved-true branch; when the remote connect resolves false or throws, the
selector keeps its previous value. -/
theorem c5_connect_flips_only_on_success (s : FileSystemManager.MgrState)
    (o : FileSystemManager.ConnectOutcome) :
    ((∃ c, o = FileSystemManager.ConnectOutcome.success c) →
        (FileSystemManager.connectToRemote s o).2.currentFileSystem
          = FileSystemSource.remoteSource)
    ∧ ((∀ c, o ≠ FileSystemManager.ConnectOutcome.success c) →
        (FileSystemManager.connectToRemote s o).2.currentFileSystem
          = s.currentFileSystem) := by
  constructor
  · rintro ⟨c, rfl⟩
    rfl
  · intro h
    cases o with
    | success c => exact absurd rfl (h c)
    | returnedFalse => rfl
    | threw m => rfl

/-- Witness for c5_connect_flips_only_on_success at a throwing connect from
the initial state. -/
theorem c5_witness :
    (FileSystemManager.connectToRemote (FileSystemManager.initialManager none)
        (FileSystemManager.ConnectOutcome.threw "boom")).2.currentFileSystem
      = FileSystemSource.localSource :=
  (c5_connect_flips_only_on_success (FileSystemManager.initialManager none)
      (FileSystemManager.ConnectOutcome.threw "boom")).2
    (fun c hc => FileSystemManager.ConnectOutcome.noConfusion hc)

/-- C6 counterexample: with the selector on `local`, setStreamingCallback
returns normally with the state untouched — it is silently ignored, it does
not fail with an unsupported-operation error as the claim states. -/
theorem c6_counterexample :
    (FileSystemManager.initialManager none).currentFileSystem
        = FileSystemSource.localSource
    ∧ FileSystemManager.setStreamingCallback (FileSystemManager.initialManager none) 7
        = Except.ok (FileSystemManager.initialManager none) := by
  exact ⟨rfl, rfl⟩

/-- C6 amended: whenever the selector is not `remote`, executeCommand fails
with the unsupported-operation error, while setStreamingCallback is silently
ignored: it returns normally and changes nothing. -/
theorem c6_amended (s : FileSystemManager.MgrState) (env : FileSystemManager.Env)
    (cb : Nat) (h : s.currentFileSystem ≠ FileSystemSource.remoteSource) :
    FileSystemManager.executeCommand s env
        = Except.error "Command execution only available in remote mode"
    ∧ FileSystemManager.setStreamingCallback s cb = Except.ok s := by
  have hb : (s.currentFileSystem == FileSystemSource.remoteSource) = false := by
    simp [h]
  constructor
  · simp [FileSystemManager.executeCommand, hb]
  · simp [FileSystemManager.setStreamingCallback, hb]

/-- Witness for c6_amended at the initial (local) state. -/
theorem c6_amended_witness :
    FileSystemManager.executeCommand (FileSystemManager.initialManager none) witnessEnv
      = Except.error "Command execution only available in remote mode" :=
  (c6_amended (FileSystemManager.initialManager none) witnessEnv 7 (by decide)).1

/-- Credentials supplying both a password and a private key. -/
def bothCreds : SSHCredentials :=
  { host := "example.com"
    port := "22"
    username := "u"
    password := some "pw"
    privateKey := some "key"
    initialPath := none }

/-- C7 counterexample: a connect attempt that supplies both a password and a
private key is accepted by the fallback validation rather than rejected. -/
theorem c7_counterexample :
    truthyStr bothCreds.password = true
    ∧ truthyStr bothCreds.privateKey = true
    ∧ RealSSHService.connectFallback bothCreds = Except.ok true := by
  decide

/-- C10: pathExists never surfaces an error: it always returns a boolean,
any failure of the single listing it issues is converted to false, and the
manager state it hands back is exactly the state it received. -/
theorem c10_pathExists_total (s : FileSystemManager.MgrState)
    (env : FileSystemManager.Env) (path : String) :
    (FileSystemManager.pathExists s env path).2 = s
    ∧ (FileSystemManager.pathExists s env path).1.isOk = true
    ∧ (∀ e, FileSystemManager.pathExistsListing s env path = Except.error e →
        (FileSystemManager.pathExists s env path).1 = Except.ok false) := by
  refine ⟨rfl, ?_, ?_⟩
  · rfl
  · intro e he
    by_cases hl : (s.currentFileSystem == FileSystemSource.localSource) = true
    · simp only [FileSystemManager.pathExistsListing, hl, if_true] at he
      simp only [FileSystemManager.pathExists, hl, if_true, he]
    · simp only [FileSystemManager.pathExistsListing, hl, if_false,
        Bool.false_eq_true] at he
      simp only [FileSystemManager.pathExists, hl, if_false, he,
        Bool.false_eq_true]

/-- A state whose selector is `remote` while the service is disconnected. -/
def remoteSelectedDisconnected : FileSystemManager.MgrState :=
  { currentFileSystem := FileSystemSource.remoteSource
    localCurrentPath := "/"
    ws := WebSocketSSHService.initialState }

/-- Witness for c10_pathExists_total where the listing fails with the
remote not-connected error. -/
theorem c10_witness :
    (FileSystemManager.pathExists remoteSelectedDisconnected witnessEnv "/a/b").1
      = Except.ok false :=
  (c10_pathExists_total remoteSelectedDisconnected witnessEnv "/a/b").2.2
    "Not connected to remote server" (by decide)

/-- C7 amended: the fallback validation rejects a connect attempt exactly
when neither a truthy password nor a truthy private key is supplied; it
accepts any attempt supplying at least one of them (both included), subject
only to the hard-coded password check of the one hard-coded host. -/
theorem c7_amended (c : SSHCredentials) :
    ((truthyStr c.password = false ∧ truthyStr c.privateKey = false) →
        RealSSHService.connectFallback c
          = Except.error "No password or private key provided")
    ∧ ((truthyStr c.password || truthyStr c.privateKey) = true →
        c.host ≠ "panli-srv1.ece.gatech.edu" →
        RealSSHService.connectFallback c = Except.ok true)
    ∧ ((truthyStr c.password || truthyStr c.privateKey) = true →
        c.host = "panli-srv1.ece.gatech.edu" →
        c.password = some "Monkeystroke69!" →
        RealSSHService.connectFallback c = Except.ok true)
    ∧ ((truthyStr c.password || truthyStr c.privateKey) = true →
        c.host = "panli-srv1.ece.gatech.edu" →
        c.password ≠ some "Monkeystroke69!" →
        RealSSHService.connectFallback c
          = Except.error "Authentication failed: Invalid password") := by
  refine ⟨?_, ?_, ?_, ?_⟩
  · intro h
    simp [RealSSHService.connectFallback, h.1, h.2]
  · intro h hh
    simp only [RealSSHService.connectFallback]
    rw [if_neg, if_neg]
    · simp [hh]
    · simp only [Bool.and_eq_true, Bool.not_eq_true'] at *
      intro hcon
      rcases Bool.or_eq_true_iff.mp h with h1 | h1
      · exact absurd h1 (by simp [hcon.1])
      · exact absurd h1 (by simp [hcon.2])
  · intro h hh hpw
    simp [RealSSHService.connectFallback, hh, hpw, truthyStr]
  · intro h hh hpw
    simp only [RealSSHService.connectFallback]
    rw [if_neg, if_pos]
    · simp [hh, hpw]
    · simp only [Bool.and_eq_true, Bool.not_eq_true'] at *
      intro hcon
      rcases Bool.or_eq_true_iff.mp h with h1 | h1
      · exact absurd h1 (by simp [hcon.1])
      · exact absurd h1 (by simp [hcon.2])

/-- Witness for c7_amended: both credentials supplied, non-hard-coded host,
attempt accepted. -/
theorem c7_amended_witness :
    RealSSHService.connectFallback bothCreds = Except.ok true :=
  (c7_amended bothCreds).2.1 (by decide) (by decide)

/-- The transport state after one request issued from the empty state, with
promise id 0: the deadline armed and the success/error listener pair
registered. -/
def oneRequest (okEvent errEvent timeoutMsg : String) : SocketModel.SocketState :=
  SocketModel.registerRequest SocketModel.emptySocket 0 okEvent errEvent timeoutMsg

/-- C1 counterexample (at the listDirectory request of the transport): the
one-time listeners are not retired when the deadline elapses — after the
timeout fires, both the success and the error listener are still registered —
and they are not retired together when one fires: after the success reply
arrives, the error listener is still registered. A stale listener can
therefore capture a later, unrelated reply of the same name. -/
theorem c1_counterexample :
    (SocketModel.fireTimer
        (oneRequest "ssh:listDir:success" "ssh:listDir:error" "List directory timeout")
        0).listeners
      = [{ event := "ssh:listDir:success", pid := 0, isError := false },
         { event := "ssh:listDir:error", pid := 0, isError := true }]
    ∧ (SocketModel.deliver
        (oneRequest "ssh:listDir:success" "ssh:listDir:error" "List directory timeout")
        "ssh:listDir:success" "payload").listeners
      = [{ event := "ssh:listDir:error", pid := 0, isError := true }] := by
  decide

/-- C1 amended: a request with no reply before its deadline fails with the
timeout error, and a reply delivered after the deadline cannot change the
already-settled promise; but neither the timeout nor a fired listener
retires the sibling listener, so stale listeners survive. -/
theorem c1_amended (ok err msg payload : String) (hne : ok ≠ err) :
    SocketModel.promiseOf (SocketModel.fireTimer (oneRequest ok err msg) 0) 0
        = some (SocketModel.PState.rejected msg)
    ∧ SocketModel.promiseOf
        (SocketModel.deliver (SocketModel.fireTimer (oneRequest ok err msg) 0) ok payload) 0
        = some (SocketModel.PState.rejected msg)
    ∧ (SocketModel.fireTimer (oneRequest ok err msg) 0).listeners
        = [{ event := ok, pid := 0, isError := false },
           { event := err, pid := 0, isError := true }]
    ∧ (SocketModel.deliver (oneRequest ok err msg) ok payload).listeners
        = [{ event := err, pid := 0, isError := true }] := by
  have hba : (err == ok) = false := by
    simp only [beq_eq_false_iff_ne, ne_eq]
    exact fun h => hne h.symm
  have hok : (ok == ok) = true := by simp
  refine ⟨?_, ?_, ?_, ?_⟩
  · simp [oneRequest, SocketModel.registerRequest, SocketModel.emptySocket,
      SocketModel.fireTimer, SocketModel.settle, SocketModel.promiseOf]
  · simp [oneRequest, SocketModel.registerRequest, SocketModel.emptySocket,
      SocketModel.fireTimer, SocketModel.settle, SocketModel.promiseOf,
      SocketModel.deliver, SocketModel.fireListener, hba, hok]
  · simp [oneRequest, SocketModel.registerRequest, SocketModel.emptySocket,
      SocketModel.fireTimer]
  · simp [oneRequest, SocketModel.registerRequest, SocketModel.emptySocket,
      SocketModel.deliver, SocketModel.fireListener, hba, hok]

/-- Witness for c1_amended at the transport's listDirectory request. -/
theorem c1_amended_witness :
    SocketModel.promiseOf
        (SocketModel.fireTimer
          (oneRequest "ssh:listDir:success" "ssh:listDir:error" "List directory timeout")
          0) 0
      = some (SocketModel.PState.rejected "List directory timeout") :=
  (c1_amended "ssh:listDir:success" "ssh:listDir:error" "List directory timeout" "payload"
    (by decide)).1

/-- Helper: every session event other than a successful connect preserves a
lowered service connected flag. -/
theorem step_preserves_disconnected (s : FileSystemManager.MgrState)
    (e : FileSystemManager.MgrEvent) (h : s.ws.connected = false)
    (hns : FileSystemManager.isConnectSuccess e = false) :
    (FileSystemManager.step s e).ws.connected = false := by
  cases e with
  | evConnect o =>
      cases o with
      | success c => simp [FileSystemManager.isConnectSuccess] at hns
      | returnedFalse =>
          simp [FileSystemManager.step, FileSystemManager.connectToRemote, h]
      | threw m =>
          simp [FileSystemManager.step, FileSystemManager.connectToRemote,
            WebSocketSSHService.cleanup]
  | evDisconnect a =>
      simp [FileSystemManager.step, FileSystemManager.disconnectFromRemote,
        WebSocketSSHService.disconnect, WebSocketSSHService.cleanup]
  | evSwitchToLocal =>
      simp [FileSystemManager.step, FileSystemManager.switchToLocal, h]
  | evSwitchToRemote =>
      have hrc : RemoteFileSystem.isConnected s.ws = false := by
        simp [RemoteFileSystem.isConnected, WebSocketSSHService.isConnected, h]
      simp [FileSystemManager.step, FileSystemManager.switchToRemote, hrc, h]
  | evSocketDropped =>
      simp [FileSystemManager.step, WebSocketSSHService.socketDropped]
  | evSetStreamingCallback cb =>
      by_cases hc : (s.currentFileSystem == FileSystemSource.remoteSource) = true <;>
        simp [FileSystemManager.step, FileSystemManager.setStreamingCallback,
          WebSocketSSHService.setStreamingCallback, hc, h]

/-- Helper: along any trace without a successful connect, the service
connected flag stays down. -/
theorem run_disconnected (tr : List FileSystemManager.MgrEvent) :
    ∀ s : FileSystemManager.MgrState, s.ws.connected = false →
      FileSystemManager.noSuccessfulConnect tr = true →
      (FileSystemManager.run s tr).ws.connected = false := by
  induction tr with
  | nil => intro s h _; exact h
  | cons e tl ih =>
      intro s h hns
      simp only [FileSystemManager.noSuccessfulConnect, List.all_cons,
        Bool.and_eq_true, Bool.not_eq_true'] at hns
      have h1 : (FileSystemManager.step s e).ws.connected = false :=
        step_preserves_disconnected s e h hns.1
      have h2 : FileSystemManager.noSuccessfulConnect tl = true := by
        simp only [FileSystemManager.noSuccessfulConnect]
        exact List.all_eq_true.mpr (fun x hx => by
          have := List.all_eq_true.mp hns.2 x hx
          exact this)
      exact ih (FileSystemManager.step s e) h1 h2

/-- C3: before any successful connectToRemote, switchToRemote always throws
the precondition error and leaves the state unchanged; immediately after a
successful connect, switchToRemote succeeds without changing the state;
whenever the selector is `remote`, every contract call — getCurrentPath,
listDirectory, changeDirectory, readFile, writeFile, isConnected,
getConnectionInfo — is delegated to the remote backend; and switchToLocal
always succeeds, from every state, setting the selector to `local`. -/
theorem c3_switch_and_delegation (tr : List FileSystemManager.MgrEvent)
    (docDir : Option String)
    (h : FileSystemManager.noSuccessfulConnect tr = true) :
    (FileSystemManager.switchToRemote
        (FileSystemManager.run (FileSystemManager.initialManager docDir) tr)
      = Except.error "Cannot switch to remote file system: not connected"
    ∧ FileSystemManager.step
        (FileSystemManager.run (FileSystemManager.initialManager docDir) tr)
        FileSystemManager.MgrEvent.evSwitchToRemote
      = FileSystemManager.run (FileSystemManager.initialManager docDir) tr)
    ∧ (∀ (s : FileSystemManager.MgrState) (c : SSHCredentials),
        FileSystemManager.switchToRemote
            ((FileSystemManager.connectToRemote s
              (FileSystemManager.ConnectOutcome.success c)).2)
          = Except.ok ((FileSystemManager.connectToRemote s
              (FileSystemManager.ConnectOutcome.success c)).2))
    ∧ (∀ s : FileSystemManager.MgrState,
        s.currentFileSystem = FileSystemSource.remoteSource →
          FileSystemManager.getCurrentFS s = FileSystemManager.Backend.remoteFS
          ∧ FileSystemManager.getCurrentPath s = RemoteFileSystem.getCurrentPath s.ws
          ∧ (∀ (env : FileSystemManager.Env) (pathOpt : Option String),
              FileSystemManager.listDirectory s env pathOpt
                = RemoteFileSystem.listDirectory s.ws pathOpt env.remoteList)
          ∧ (∀ (env : FileSystemManager.Env) (path : String),
              FileSystemManager.changeDirectory s env path
                = match RemoteFileSystem.changeDirectory s.ws path env.remoteList with
                  | Except.error e => Except.error e
                  | Except.ok w => Except.ok { s with ws := w })
          ∧ (∀ (env : FileSystemManager.Env) (fp : String),
              FileSystemManager.readFile s env fp
                = RemoteFileSystem.readFile s.ws fp env.remoteRead)
          ∧ (∀ (env : FileSystemManager.Env) (fp content : String),
              FileSystemManager.writeFile s env fp content
                = RemoteFileSystem.writeFile s.ws fp content env.remoteWrite)
          ∧ FileSystemManager.isConnected s = RemoteFileSystem.isConnected s.ws
          ∧ (∀ env : FileSystemManager.Env,
              FileSystemManager.getConnectionInfo s env
                = RemoteFileSystem.getConnectionInfo s.ws))
    ∧ (∀ s : FileSystemManager.MgrState,
        FileSystemManager.switchToLocal s
          = Except.ok { s with currentFileSystem := FileSystemSource.localSource }) := by
  have hconn : (FileSystemManager.run (FileSystemManager.initialManager docDir) tr).ws.connected
      = false :=
    run_disconnected tr (FileSystemManager.initialManager docDir) rfl h
  have hrc : RemoteFileSystem.isConnected
      (FileSystemManager.run (FileSystemManager.initialManager docDir) tr).ws = false := by
    simp [RemoteFileSystem.isConnected, WebSocketSSHService.isConnected, hconn]
  refine ⟨⟨?_, ?_⟩, ?_, ?_, ?_⟩
  · simp [FileSystemManager.switchToRemote, hrc]
  · simp [FileSystemManager.step, FileSystemManager.switchToRemote, hrc]
  · intro s c
    simp only [FileSystemManager.connectToRemote, FileSystemManager.switchToRemote,
      RemoteFileSystem.isConnected, WebSocketSSHService.isConnected,
      WebSocketSSHService.connectApply]
    simp
  · intro s hs
    have hb : FileSystemManager.getCurrentFS s = FileSystemManager.Backend.remoteFS := by
      simp [FileSystemManager.getCurrentFS, hs]
    refine ⟨hb, ?_, ?_, ?_, ?_, ?_, ?_, ?_⟩
    · simp [FileSystemManager.getCurrentPath, hb]
    · intro env pathOpt
      simp [FileSystemManager.listDirectory, hb]
    · intro env path
      simp [FileSystemManager.changeDirectory, hb]
    · intro env fp
      simp [FileSystemManager.readFile, hb]
    · intro env fp content
      simp [FileSystemManager.writeFile, hb]
    · simp [FileSystemManager.isConnected, hb]
    · intro env
      simp [FileSystemManager.getConnectionInfo, hb,
        RemoteFileSystem.getConnectionInfo, WebSocketSSHService.getConnectionInfo, hs]
  · intro s
    rfl

/-- Witness for c3_switch_and_delegation on a short trace holding a failed
connect and a switch back to local. -/
theorem c3_witness :
    FileSystemManager.switchToRemote
        (FileSystemManager.run (FileSystemManager.initialManager none)
          [FileSystemManager.MgrEvent.evConnect FileSystemManager.ConnectOutcome.returnedFalse,
           FileSystemManager.MgrEvent.evSwitchToLocal])
      = Except.error "Cannot switch to remote file system: not connected" :=
  ((c3_switch_and_delegation
      [FileSystemManager.MgrEvent.evConnect FileSystemManager.ConnectOutcome.returnedFalse,
       FileSystemManager.MgrEvent.evSwitchToLocal]
      none (by decide)).1).1

/-- A directory entry used by the listing counterexample. -/
def dirA : FileItem :=
  { name := "a", path := "/r/a", isFile := false, isDirectory := true, size := none, modifiedDate := none }

/-- A file entry used by the listing counterexample. -/
def fileB : FileItem :=
  { name := "b", path := "/r/b", isFile := true, isDirectory := false, size := some 3, modifiedDate := none }

/-- A connected transport state. -/
def connectedWS : WebSocketSSHService.WSState :=
  { socket := some true
    connected := true
    currentPath := "/r"
    connectionInfo := none
    streamingCallback := none }

/-- C2 counterexample: the remote backend resolves the broker's entry list
verbatim — here a file precedes a directory in the returned sequence, so the
claimed directories-first ordering does not hold for the remote backend. -/
theorem c2_counterexample :
    RemoteFileSystem.listDirectory connectedWS (some "/r") (Except.ok [fileB, dirA])
        = Except.ok [fileB, dirA]
    ∧ fileB.isDirectory = false
    ∧ dirA.isDirectory = true := by
  decide

/-- Helper: the listing comparator holds exactly when the pair is a
directory before a file, or the two entries share a group and the collation
does not place the first name after the second. -/
theorem itemLe_true_iff (locale : String → String → Ordering) (a b : FileItem) :
    LocalFileSystem.itemLe locale a b = true ↔
      ((a.isDirectory = true ∧ b.isDirectory = false)
        ∨ (a.isDirectory = b.isDirectory ∧ locale a.name b.name ≠ Ordering.gt)) := by
  unfold LocalFileSystem.itemLe
  cases ha : a.isDirectory <;> cases hb : b.isDirectory <;> simp [ha, hb] <;>
    (cases hlt : locale a.name b.name <;> decide)

/-- C2 amended: only the local backend sorts its listing — directories
before files, groups ordered by the host collation backing localeCompare
(assumed a consistent total preorder) — while the remote backend returns the
broker's entries in arrival order, unsorted. -/
theorem c2_amended (env : LocalFileSystem.FsEnv) (currentPath : String)
    (pathOpt : Option String) (files : List FileItem)
    (htrans : ∀ x y z : String, env.locale x y ≠ Ordering.gt →
      env.locale y z ≠ Ordering.gt → env.locale x z ≠ Ordering.gt)
    (htotal : ∀ x y : String, env.locale x y ≠ Ordering.gt ∨ env.locale y x ≠ Ordering.gt)
    (hok : LocalFileSystem.listDirectory env currentPath pathOpt = Except.ok files) :
    files.Pairwise (fun a b =>
        (a.isDirectory = true ∧ b.isDirectory = false)
        ∨ (a.isDirectory = b.isDirectory ∧ env.locale a.name b.name ≠ Ordering.gt))
    ∧ (∀ (w : WebSocketSSHService.WSState) (p : Option String) (l : List FileItem),
        WebSocketSSHService.opGuard w = true →
          WebSocketSSHService.listDirectory w p (Except.ok l) = Except.ok l) := by
  constructor
  · have ltrans : ∀ a b c : FileItem, LocalFileSystem.itemLe env.locale a b = true →
        LocalFileSystem.itemLe env.locale b c = true →
        LocalFileSystem.itemLe env.locale a c = true := by
      intro a b c hab hbc
      rw [itemLe_true_iff] at hab hbc ⊢
      rcases hab with ⟨ha1, ha2⟩ | ⟨ha1, ha2⟩
      · rcases hbc with ⟨hb1, hb2⟩ | ⟨hb1, hb2⟩
        · rw [ha2] at hb1; cases hb1
        · exact Or.inl ⟨ha1, hb1 ▸ ha2⟩
      · rcases hbc with ⟨hb1, hb2⟩ | ⟨hb1, hb2⟩
        · exact Or.inl ⟨ha1.trans hb1, hb2⟩
        · exact Or.inr ⟨ha1.trans hb1, htrans _ _ _ ha2 hb2⟩
    have ltotal : ∀ a b : FileItem,
        (LocalFileSystem.itemLe env.locale a b || LocalFileSystem.itemLe env.locale b a) = true := by
      intro a b
      by_cases hab : LocalFileSystem.itemLe env.locale a b = true
      · rw [hab, Bool.true_or]
      · have hab2 : LocalFileSystem.itemLe env.locale a b = false :=
          Bool.eq_false_iff.mpr hab
        rw [hab2, Bool.false_or, itemLe_true_iff]
        rw [itemLe_true_iff] at hab
        cases ha : a.isDirectory <;> cases hb : b.isDirectory <;>
          simp [ha, hb] at hab ⊢
        · rcases htotal a.name b.name with h1 | h1
          · exact absurd hab h1
          · exact h1
        · rcases htotal a.name b.name with h1 | h1
          · exact absurd hab h1
          · exact h1
    rcases hread : env.readDirectory (jsPathOr currentPath pathOpt) with e | names
    · simp [LocalFileSystem.listDirectory, hread] at hok
    · simp only [LocalFileSystem.listDirectory, hread, Except.ok.injEq] at hok
      rw [← hok]
      exact List.Pairwise.imp (fun hab => (itemLe_true_iff env.locale _ _).mp hab)
        (List.sorted_mergeSort ltrans ltotal _)
  · intro w p l hg
    simp [WebSocketSSHService.listDirectory, hg]

/-- Witness for c2_amended over the witness storage environment. -/
theorem c2_amended_witness :
    ([{ name := "b", path := "/b", isFile := true, isDirectory := false,
        size := none, modifiedDate := none },
      { name := "a", path := "/a", isFile := true, isDirectory := false,
        size := none, modifiedDate := none }] : List FileItem).Pairwise
      (fun a b =>
        (a.isDirectory = true ∧ b.isDirectory = false)
        ∨ (a.isDirectory = b.isDirectory
            ∧ witnessFsEnv.locale a.name b.name ≠ Ordering.gt)) :=
  (c2_amended witnessFsEnv "/" none _
    (fun x y z h1 h2 => by simp [witnessFsEnv])
    (fun x y => Or.inl (by simp [witnessFsEnv]))
    (by
      simp +decide [LocalFileSystem.listDirectory, witnessFsEnv, List.mergeSort,
        LocalFileSystem.itemLe, LocalFileSystem.statToItem, LocalFileSystem.fullPath,
        LocalFileSystem.endsWithSlash, jsPathOr])).1

/-- A storage environment in which every stat reports an existing directory
while every directory read fails. -/
def lockedEnv : LocalFileSystem.FsEnv :=
  { readDirectory := fun _ => Except.error "permission denied"
    getInfo := fun _ => Except.ok
      { existsFlag := true, isDirectory := true, size := none, modificationTime := none }
    readText := fun _ => Except.error "io"
    writeText := fun _ _ => Except.error "io"
    locale := fun _ _ => Ordering.eq
    documentDirectory := none
    cacheDirectory := none }

/-- C8 counterexample: the local backend validates changeDirectory with a
stat, not with a listing — here changeDirectory accepts a path and mutates
the current path even though listing that same path fails. -/
theorem c8_counterexample :
    LocalFileSystem.changeDirectory lockedEnv "/" "/locked" = Except.ok "/locked"
    ∧ LocalFileSystem.listDirectory lockedEnv "/" (some "/locked")
        = Except.error "Failed to list directory: /locked" := by
  decide

/-- C8 amended: the local backend validates changeDirectory by stat — it
mutates the current path exactly when the stat reports an existing
directory, failing with the not-found or not-a-directory error otherwise —
while the remote backend validates by listing the path and mutates the
current path exactly when that listing succeeds, propagating the listing's
error otherwise. -/
theorem c8_amended :
    (∀ (env : LocalFileSystem.FsEnv) (cp path p2 : String),
        LocalFileSystem.changeDirectory env cp path = Except.ok p2 →
          p2 = path
          ∧ ∀ i : LocalFileSystem.FsInfo, env.getInfo path = Except.ok i →
              i.existsFlag = true ∧ i.isDirectory = true)
    ∧ (∀ (env : LocalFileSystem.FsEnv) (cp path : String) (i : LocalFileSystem.FsInfo),
        env.getInfo path = Except.ok i → i.existsFlag = false →
          LocalFileSystem.changeDirectory env cp path
            = Except.error ("Directory does not exist: " ++ path))
    ∧ (∀ (env : LocalFileSystem.FsEnv) (cp path : String) (i : LocalFileSystem.FsInfo),
        env.getInfo path = Except.ok i → i.existsFlag = true → i.isDirectory = false →
          LocalFileSystem.changeDirectory env cp path
            = Except.error ("Path is not a directory: " ++ path))
    ∧ (∀ (w : WebSocketSSHService.WSState) (path : String)
          (reply : Except String (List FileItem)) (w2 : WebSocketSSHService.WSState),
        WebSocketSSHService.changeDirectory w path reply = Except.ok w2 →
          w2.currentPath = path
          ∧ (WebSocketSSHService.listDirectory w (some path) reply).isOk = true)
    ∧ (∀ (w : WebSocketSSHService.WSState) (path : String)
          (reply : Except String (List FileItem)) (e : String),
        WebSocketSSHService.listDirectory w (some path) reply = Except.error e →
          WebSocketSSHService.changeDirectory w path reply = Except.error e) := by
  refine ⟨?_, ?_, ?_, ?_, ?_⟩
  · intro env cp path p2 hok
    unfold LocalFileSystem.changeDirectory at hok
    rcases hs : env.getInfo path with e | i
    · rw [hs] at hok; cases hok
    · rw [hs] at hok
      by_cases h1 : i.existsFlag = true
      · by_cases h2 : i.isDirectory = true
        · have hp : p2 = path := by
            simp [h1, h2] at hok
            exact hok.symm
          refine ⟨hp, ?_⟩
          intro j hj
          have hij : i = j := by injection hj
          subst hij
          exact ⟨h1, h2⟩
        · exfalso
          simp [h1, Bool.eq_false_iff.mpr h2] at hok
      · exfalso
        simp [Bool.eq_false_iff.mpr h1] at hok
  · intro env cp path i hs hne
    unfold LocalFileSystem.changeDirectory
    rw [hs]
    simp [hne]
  · intro env cp path i hs he hnd
    unfold LocalFileSystem.changeDirectory
    rw [hs]
    simp [he, hnd]
  · intro w path reply w2 hok
    unfold WebSocketSSHService.changeDirectory at hok
    rcases hl : WebSocketSSHService.listDirectory w (some path) reply with e | l
    · rw [hl] at hok; cases hok
    · rw [hl] at hok
      cases hok
      exact ⟨rfl, by rfl⟩
  · intro w path reply e hl
    unfold WebSocketSSHService.changeDirectory
    rw [hl]

/-- Witness for c8_amended: on the disconnected transport, changeDirectory
fails with the listing's not-connected error. -/
theorem c8_amended_witness :
    WebSocketSSHService.changeDirectory WebSocketSSHService.initialState "/x" (Except.ok [])
      = Except.error "SSH not connected" :=
  c8_amended.2.2.2.2 WebSocketSSHService.initialState "/x" (Except.ok [])
    "SSH not connected" (by decide)

/-- C9: when the directory read succeeds, the local listing always succeeds
and returns exactly one entry per name the storage primitive returned; a
name whose per-entry stat failed is still present, as the entry classified
as a file of unknown size — the result is never a shortened list. -/
theorem c9_listing_complete (env : LocalFileSystem.FsEnv) (currentPath : String)
    (pathOpt : Option String) (names : List String)
    (hread : env.readDirectory (jsPathOr currentPath pathOpt) = Except.ok names) :
    (LocalFileSystem.listDirectory env currentPath pathOpt).isOk = true
    ∧ (∀ files, LocalFileSystem.listDirectory env currentPath pathOpt = Except.ok files →
        files.length = names.length
        ∧ (∀ n ∈ names, ∀ e : String,
            env.getInfo (LocalFileSystem.fullPath (jsPathOr currentPath pathOpt) n)
                = Except.error e →
              LocalFileSystem.statToItem n
                  (LocalFileSystem.fullPath (jsPathOr currentPath pathOpt) n)
                  (Except.error e)
                ∈ files))
    ∧ (∀ (n fp e : String),
        (LocalFileSystem.statToItem n fp (Except.error e)).isFile = true
        ∧ (LocalFileSystem.statToItem n fp (Except.error e)).isDirectory = false
        ∧ (LocalFileSystem.statToItem n fp (Except.error e)).size = none) := by
  have hls : LocalFileSystem.listDirectory env currentPath pathOpt
      = Except.ok ((names.map (fun n =>
          LocalFileSystem.statToItem n
            (LocalFileSystem.fullPath (jsPathOr currentPath pathOpt) n)
            (env.getInfo (LocalFileSystem.fullPath (jsPathOr currentPath pathOpt) n)))).mergeSort
          (LocalFileSystem.itemLe env.locale)) := by
    simp [LocalFileSystem.listDirectory, hread]
  refine ⟨by rw [hls]; rfl, ?_, ?_⟩
  · intro files hf
    rw [hls] at hf
    injection hf with hf
    constructor
    · rw [← hf, List.length_mergeSort, List.length_map]
    · intro n hn e he
      rw [← hf]
      have hmem := List.mem_map_of_mem (fun n =>
        LocalFileSystem.statToItem n
          (LocalFileSystem.fullPath (jsPathOr currentPath pathOpt) n)
          (env.getInfo (LocalFileSystem.fullPath (jsPathOr currentPath pathOpt) n))) hn
      have hmem2 : LocalFileSystem.statToItem n
          (LocalFileSystem.fullPath (jsPathOr currentPath pathOpt) n)
          (env.getInfo (LocalFileSystem.fullPath (jsPathOr currentPath pathOpt) n))
          ∈ List.map (fun n =>
            LocalFileSystem.statToItem n
              (LocalFileSystem.fullPath (jsPathOr currentPath pathOpt) n)
              (env.getInfo (LocalFileSystem.fullPath (jsPathOr currentPath pathOpt) n)))
            names := hmem
      rw [he] at hmem2
      exact ((List.mergeSort_perm _ _).mem_iff).mpr hmem2
  · intro n fp e
    exact ⟨rfl, rfl, rfl⟩

/-- Witness for c9_listing_complete over the witness storage environment,
whose every per-entry stat fails. -/
theorem c9_witness :
    (LocalFileSystem.listDirectory witnessFsEnv "/" none).isOk = true :=
  (c9_listing_complete witnessFsEnv "/" none ["b", "a"] rfl).1
